import Mathlib

/-!
Verification of the `intuis_connect` Home Assistant integration
(`src/intuis_connect/*.py`) against its natural-language specification.

The development shallowly embeds the JSON data model and the pure decision
logic of the Python source: JSON values become an inductive type, Python dict
and truthiness semantics become explicit helper functions, stateful methods
become functions from an explicit state plus the outcomes of their HTTP calls
to a new state, and code that raises `IntuisApiError` returns `Except`.
Every definition is annotated with the source function it translates.
-/

namespace Intuis

/-- A JSON value as produced by the `resp.json()` of `aiohttp` in `api.py`: Python
`None`, `bool`, numbers, `str`, `list` and `dict`. Numbers are modelled as
exact rationals (the source only moves numbers around and compares/copies
them; no float rounding is exercised by any claim). Objects keep their fields
in order; the payloads quantified over in the theorems use each key once,
matching Python dicts, whose keys are unique. -/
inductive Json where
  | null : Json
  | bool (b : Bool) : Json
  | num (q : Rat) : Json
  | str (s : String) : Json
  | arr (items : List Json) : Json
  | obj (fields : List (String × Json)) : Json

/-- Python `d.get(k)` on a dict: the value of the first matching key, absent
keys give `none` (Python `None`). -/
def JObj.get : List (String × Json) → String → Option Json
  | [], _ => none
  | (k, v) :: t, k₀ => if k = k₀ then some v else JObj.get t k₀

/-- The values of a dict, in field order (Python `d.values()`). -/
def JObj.valuesList : List (String × Json) → List Json
  | [] => []
  | (_, v) :: t => v :: JObj.valuesList t

/-- Python `d[k] = v` on a copied dict (`dict(home)` followed by assignment in
`IntuisApi.get_home`): replaces the value of an existing key in place,
otherwise appends the binding. -/
def JObj.set : List (String × Json) → String → Json → List (String × Json)
  | [], k, v => [(k, v)]
  | (k', v') :: t, k, v => if k' = k then (k, v) :: t else (k', v') :: JObj.set t k v

/-- Python truthiness of a JSON value: `None`, `False`, `0`, `""`, `[]` and
an empty dict are falsy, everything else truthy. -/
def pyTruthy : Json → Bool
  | .null => false
  | .bool b => b
  | .num q => q ≠ 0
  | .str s => s ≠ ""
  | .arr items => !items.isEmpty
  | .obj fields => !fields.isEmpty

/-- Python `a or b` on JSON values: `a` when truthy, else `b`. -/
def pyOr (a b : Json) : Json := if pyTruthy a then a else b

/-- Python `d.get(k)` with the absent key mapped to the JSON value `null`,
which is how a returned `None` behaves in the `or` chains of the source. -/
def getN (fields : List (String × Json)) (k : String) : Json :=
  (JObj.get fields k).getD .null

/-- Python `d.get(k)` through a value that may not be a dict. The source only
reaches these lookups with dict (or falsy, replaced by `\x7b\x7d`) values; a
non-dict here returns `null` where Python would raise `AttributeError`, a
case no theorem below exercises. -/
def getAny (j : Json) (k : String) : Json :=
  match j with
  | .obj fields => getN fields k
  | _ => .null

/-- Membership of a character in the whitespace set of Python `str.strip()`
(the ASCII whitespace characters). -/
def isPySpace (c : Char) : Bool :=
  c = ' ' || c = '\t' || c = '\n' || c = '\r' || c = '\x0b' || c = '\x0c'

/-- Removal of trailing whitespace, the right half of Python `str.strip()`. -/
def dropRightSpace (l : List Char) : List Char :=
  (l.reverse.dropWhile isPySpace).reverse

/-- Python `str.strip()`: leading and trailing whitespace removed. -/
def pystrip (s : String) : String :=
  String.mk (dropRightSpace (s.toList.dropWhile isPySpace))

/-- Python `str()` of the JSON values that reach the string conversions of the
source (ids and id-like fields). Scalars follow CPython: `str(None)` is
`"None"`, booleans capitalise, a string is itself. A rational with
denominator 1 renders like a Python int. Containers and proper fractions
render as a bracketed placeholder: for every such value only the
non-blankness of `str(v)` affects control flow in the source (Python renders
a list as `[...]`-style text starting with a bracket), and no theorem below
depends on their exact text. -/
def pyStr : Json → String
  | .null => "None"
  | .bool true => "True"
  | .bool false => "False"
  | .num q => if q.den = 1 then toString q.num else toString q
  | .str s => s
  | .arr _ => "[...]"
  | .obj _ => "\x7b...\x7d"

/-- Python `str.lower()` on the ASCII mode strings the source compares
(`Char.toLower` agrees with Python on ASCII letters, and the vendor modes
are ASCII). -/
def pyLower (s : String) : String :=
  String.mk (s.toList.map Char.toLower)

/-- Python `isinstance(v, (int, float))` followed by `float(v)`: JSON numbers
convert to themselves and, because `bool` is an `int` subclass in Python,
`True`/`False` convert to `1.0`/`0.0`. Everything else is rejected. -/
def asPyNumber : Json → Option Rat
  | .num q => some q
  | .bool b => some (if b then 1 else 0)
  | _ => none

/-- Python `isinstance(v, (int, float, str, bool))`, the scalar filter of
`sensor._get_room_field`. -/
def isScalar : Json → Bool
  | .num _ => true
  | .str _ => true
  | .bool _ => true
  | _ => false


/-! ## Home extraction (`IntuisApi._extract_home_from_homesdata`, api.py 339-487)

The Python method runs a breadth-first search over the whole payload with a
`seen` set keyed on object identity. A parsed JSON payload is a tree, so the
`seen` set amounts to visiting each tree node exactly once, and since every
child of a processed dict or list is enqueued, the search processes every
node of the tree. Its result is therefore a candidate dict of maximal hint
score (the running `best`/`best_score` pair only ever moves to a strictly
better score, or to an equal score with the `rooms`-key preference). The
embedding below collects the candidate dicts by a structural traversal and
folds the same update rule over them; only the order in which equal-score
candidates are met can differ from the BFS, and no theorem below depends on
which of several equal-score candidates is returned. -/

/-- The contribution of one hint key to the score, from the `_score_candidate`
closure: a present key scores its weight when its value is a non-empty list
or dict, or a scalar other than `None` and `""`. -/
def scoreKey (fields : List (String × Json)) (k : String) (w : Int) : Int :=
  match JObj.get fields k with
  | none => 0
  | some v =>
    match v with
    | .arr items => if items.isEmpty then 0 else w
    | .obj fs => if fs.isEmpty then 0 else w
    | .null => 0
    | .str s => if s = "" then 0 else w
    | _ => w

/-- The hint score of a candidate dict (`_score_candidate` in
`_extract_home_from_homesdata`), including the `+5` bonus for a `rooms` key
holding a list. -/
def hintScore (fields : List (String × Json)) : Int :=
  scoreKey fields "rooms" 4 + scoreKey fields "modules" 3 +
    scoreKey fields "therm_schedules" 3 + scoreKey fields "schedules" 3 +
    scoreKey fields "modules_bridged" 2 + scoreKey fields "capabilities" 2 +
    scoreKey fields "timezone" 1 + scoreKey fields "city" 1 +
    scoreKey fields "name" 1 +
    (match JObj.get fields "rooms" with
     | some (.arr _) => 5
     | _ => 0)

/-- The id a dict offers as a home candidate:
`current.get("id") or current.get("_id") or current.get("home_id")`. -/
def candidateVal (fields : List (String × Json)) : Json :=
  pyOr (getN fields "id") (pyOr (getN fields "_id") (getN fields "home_id"))

/-- Whether a dict enters the BFS as a home candidate: its id chain yields a
value that `is not None` and whose `str(...)` strips to a non-empty string. -/
def isCandidateObj (fields : List (String × Json)) : Bool :=
  match candidateVal fields with
  | .null => false
  | v => pystrip (pyStr v) ≠ ""

/-- Python `"rooms" in current`, the tie-break test of the BFS. -/
def hasRoomsKey (fields : List (String × Json)) : Bool :=
  (JObj.get fields "rooms").isSome

mutual
/-- Every dict node of a JSON tree, i.e. the dict nodes the BFS of
`_extract_home_from_homesdata` processes. -/
def Json.allObjs : Json → List (List (String × Json))
  | .obj fields => fields :: allObjsFields fields
  | .arr items => allObjsItems items
  | _ => []

/-- The dict nodes inside the elements of a list node. -/
def allObjsItems : List Json → List (List (String × Json))
  | [] => []
  | j :: t => Json.allObjs j ++ allObjsItems t

/-- The dict nodes inside the values of a dict node. -/
def allObjsFields : List (String × Json) → List (List (String × Json))
  | [] => []
  | (_, v) :: t => Json.allObjs v ++ allObjsFields t
end

/-- The candidate dicts of a payload, in traversal order. -/
def allCandidates (payload : Json) : List (List (String × Json)) :=
  (Json.allObjs payload).filter isCandidateObj

/-- The `best`/`best_score` update of the BFS, folded over the candidates: a
candidate replaces the current best when its score is strictly larger, or
equal with the candidate exposing a `rooms` key the best lacks. -/
def bestFold (best : Option (List (String × Json))) :
    List (List (String × Json)) → Option (List (String × Json))
  | [] => best
  | c :: rest =>
    let better :=
      match best with
      | none => true
      | some b =>
        hintScore c > hintScore b ||
          (hintScore c == hintScore b && (hasRoomsKey c && !hasRoomsKey b))
    bestFold (if better then some c else best) rest

/-- The `_looks_like_home` closure of the fallback search: at least one of the
home-shaped keys is present and the id chain strips to a non-empty string. -/
def looksLikeHome (fields : List (String × Json)) : Bool :=
  ((JObj.get fields "rooms").isSome || (JObj.get fields "modules").isSome ||
    (JObj.get fields "capabilities").isSome || (JObj.get fields "timezone").isSome ||
    (JObj.get fields "city").isSome) &&
  (match candidateVal fields with
   | .null => false
   | v => pystrip (pyStr v) ≠ "")

/-- Sequencing of the fallback search: the first `some`. Mirrors the
`if found: return found` cascade of `_search_home`. -/
def firstSome (a b : Option (List (String × Json))) : Option (List (String × Json)) :=
  match a with
  | some x => some x
  | none => b

/-- The first hit among the results of a loop of `_search_home` probes. -/
def firstList (l : List (Option (List (String × Json)))) :
    Option (List (String × Json)) :=
  l.foldr firstSome none

/-- The `_search_home` closure of `_extract_home_from_homesdata`, fallback of
the BFS. The source carries a depth that starts at 0 and bails out above 32;
the embedding carries the remaining depth `fuel = 33 - depth`, so the top
call is at fuel 33 and the bail-out is the `0` case, making the recursion
structural on the fuel. A dict is returned when it looks like a home;
otherwise the keys `home`, `data`, `result`, `body` are probed in order when
present, then the items of a `homes` list, then every value generically
(each Python loop becomes a map of the recursion over the sequence it runs on,
folded to its first hit). -/
def searchF : Nat → Json → Option (List (String × Json))
  | 0, _ => none
  | fuel + 1, .obj fields =>
    if looksLikeHome fields then some fields
    else
      firstSome
        (match JObj.get fields "home" with
         | some v => searchF fuel v
         | none => none)
        (firstSome
          (match JObj.get fields "data" with
           | some v => searchF fuel v
           | none => none)
          (firstSome
            (match JObj.get fields "result" with
             | some v => searchF fuel v
             | none => none)
            (firstSome
              (match JObj.get fields "body" with
               | some v => searchF fuel v
               | none => none)
              (firstSome
                (match JObj.get fields "homes" with
                 | some (.arr items) => firstList (items.map (searchF fuel))
                 | _ => none)
                (firstList ((JObj.valuesList fields).map (searchF fuel)))))))
  | fuel + 1, .arr items => firstList (items.map (searchF fuel))
  | _ + 1, _ => none

/-- The whole of `IntuisApi._extract_home_from_homesdata`: the BFS phase picks
a maximal-score candidate; when no dict in the tree carries an id the
`_search_home` fallback runs; when that also fails the method raises
`IntuisApiError`. -/
def extract_home_from_homesdata (payload : Json) :
    Except Unit (List (String × Json)) :=
  match bestFold none (allCandidates payload) with
  | some best => .ok best
  | none =>
    match searchF 33 payload with
    | some h => .ok h
    | none => .error ()

/-- The four payload shapes named by the claim: the home dict at the root,
under `home`, under `body.home`, or as an element of a `homes` list. -/
def homeAtClaimPosition (payload : Json) (o : List (String × Json)) : Prop :=
  payload = .obj o
  ∨ (∃ p, payload = .obj p ∧ JObj.get p "home" = some (.obj o))
  ∨ (∃ p b, payload = .obj p ∧ JObj.get p "body" = some (.obj b) ∧
      JObj.get b "home" = some (.obj o))
  ∨ (∃ p items, payload = .obj p ∧ JObj.get p "homes" = some (.arr items) ∧
      Json.obj o ∈ items)

theorem firstSome_eq_some {a b x} (h : firstSome a b = some x) :
    a = some x ∨ (a = none ∧ b = some x) := by
  cases a with
  | some y => exact Or.inl (by simpa [firstSome] using h)
  | none => exact Or.inr ⟨rfl, by simpa [firstSome] using h⟩

theorem firstList_eq_some {f : Json → Option (List (String × Json))} {x} :
    ∀ l : List Json, firstList (l.map f) = some x → ∃ v ∈ l, f v = some x := by
  intro l
  induction l with
  | nil => intro h; simp [firstList] at h
  | cons j t ih =>
    intro h
    rcases firstSome_eq_some (by simpa [firstList] using h) with h1 | ⟨_, h2⟩
    · exact ⟨j, List.mem_cons_self .., h1⟩
    · rcases ih (by simpa [firstList] using h2) with ⟨v, hv, hfv⟩
      exact ⟨v, List.mem_cons_of_mem _ hv, hfv⟩

theorem mem_allObjs_get :
    ∀ (fields : List (String × Json)) (k : String) (v : Json),
      JObj.get fields k = some v →
      ∀ x ∈ Json.allObjs v, x ∈ allObjsFields fields := by
  intro fields
  induction fields with
  | nil => intro k v h; simp [JObj.get] at h
  | cons kv t ih =>
    intro k v h x hx
    obtain ⟨k', v'⟩ := kv
    by_cases hk : k' = k
    · simp only [JObj.get, hk, if_pos rfl] at h
      cases h
      simp only [allObjsFields]
      exact List.mem_append_left _ hx
    · simp only [JObj.get, if_neg hk] at h
      simp only [allObjsFields]
      exact List.mem_append_right _ (ih k v h x hx)

theorem mem_allObjs_value :
    ∀ (fields : List (String × Json)) (v : Json),
      v ∈ JObj.valuesList fields →
      ∀ x ∈ Json.allObjs v, x ∈ allObjsFields fields := by
  intro fields
  induction fields with
  | nil => intro v h; simp [JObj.valuesList] at h
  | cons kv t ih =>
    intro v h x hx
    obtain ⟨k', v'⟩ := kv
    simp only [JObj.valuesList, List.mem_cons] at h
    rcases h with h | h
    · cases h
      simp only [allObjsFields]
      exact List.mem_append_left _ hx
    · simp only [allObjsFields]
      exact List.mem_append_right _ (ih v h x hx)

theorem mem_allObjs_item :
    ∀ (items : List Json) (j : Json), j ∈ items →
      ∀ x ∈ Json.allObjs j, x ∈ allObjsItems items := by
  intro items
  induction items with
  | nil => intro j h; simp at h
  | cons i t ih =>
    intro j h x hx
    rcases List.mem_cons.mp h with h | h
    · cases h
      simp only [allObjsItems]
      exact List.mem_append_left _ hx
    · simp only [allObjsItems]
      exact List.mem_append_right _ (ih j h x hx)

theorem looksLikeHome_isCandidate {fields : List (String × Json)}
    (h : looksLikeHome fields = true) : isCandidateObj fields = true := by
  unfold looksLikeHome at h
  unfold isCandidateObj
  cases hcv : candidateVal fields <;> simp_all

theorem searchF_sound :
    ∀ (fuel : Nat) (j : Json) (x : List (String × Json)),
      searchF fuel j = some x →
      x ∈ Json.allObjs j ∧ looksLikeHome x = true := by
  intro fuel
  induction fuel with
  | zero => intro j x h; simp [searchF] at h
  | succ fuel ih =>
    intro j x h
    cases j with
    | obj fields =>
      rw [searchF] at h
      by_cases hlook : looksLikeHome fields = true
      · rw [if_pos hlook] at h
        cases h
        exact ⟨by simp [Json.allObjs], hlook⟩
      · rw [if_neg hlook] at h
        have step :
            ∀ (k : String),
              (match JObj.get fields k with
               | some v => searchF fuel v
               | none => none) = some x →
              x ∈ Json.allObjs (.obj fields) ∧ looksLikeHome x = true := by
          intro k hk
          cases hget : JObj.get fields k with
          | none => rw [hget] at hk; exact absurd hk (by simp)
          | some v =>
            rw [hget] at hk
            obtain ⟨hmem, hlk⟩ := ih v x hk
            exact ⟨by
              simp only [Json.allObjs, List.mem_cons]
              exact Or.inr (mem_allObjs_get fields k v hget x hmem), hlk⟩
        rcases firstSome_eq_some h with h1 | ⟨_, h⟩
        · exact step "home" h1
        rcases firstSome_eq_some h with h1 | ⟨_, h⟩
        · exact step "data" h1
        rcases firstSome_eq_some h with h1 | ⟨_, h⟩
        · exact step "result" h1
        rcases firstSome_eq_some h with h1 | ⟨_, h⟩
        · exact step "body" h1
        rcases firstSome_eq_some h with h1 | ⟨_, h⟩
        · cases hget : JObj.get fields "homes" with
          | none => rw [hget] at h1; exact absurd h1 (by simp)
          | some v =>
            rw [hget] at h1
            cases v with
            | arr items =>
              rcases firstList_eq_some items h1 with ⟨itm, hitm, hs⟩
              obtain ⟨hmem, hlk⟩ := ih itm x hs
              refine ⟨?_, hlk⟩
              simp only [Json.allObjs, List.mem_cons]
              refine Or.inr (mem_allObjs_get fields "homes" (.arr items) hget x ?_)
              simpa [Json.allObjs] using mem_allObjs_item items itm hitm x hmem
            | null => exact absurd h1 (by simp)
            | bool b => exact absurd h1 (by simp)
            | num q => exact absurd h1 (by simp)
            | str s => exact absurd h1 (by simp)
            | obj fs => exact absurd h1 (by simp)
        · rcases firstList_eq_some (JObj.valuesList fields) h with ⟨v, hv, hs⟩
          obtain ⟨hmem, hlk⟩ := ih v x hs
          refine ⟨?_, hlk⟩
          simp only [Json.allObjs, List.mem_cons]
          exact Or.inr (mem_allObjs_value fields v hv x hmem)
    | arr items =>
      rw [searchF] at h
      rcases firstList_eq_some items h with ⟨itm, hitm, hs⟩
      obtain ⟨hmem, hlk⟩ := ih itm x hs
      exact ⟨by simpa [Json.allObjs] using mem_allObjs_item items itm hitm x hmem, hlk⟩
    | null => simp [searchF] at h
    | bool b => simp [searchF] at h
    | num q => simp [searchF] at h
    | str s => simp [searchF] at h

theorem bestFold_some_isSome :
    ∀ (l : List (List (String × Json))) (b : List (String × Json)),
      (bestFold (some b) l).isSome := by
  intro l
  induction l with
  | nil => intro b; simp [bestFold]
  | cons c t ih =>
    intro b
    simp only [bestFold]
    by_cases hb : (hintScore c > hintScore b ||
        (hintScore c == hintScore b && (hasRoomsKey c && !hasRoomsKey b))) = true
    · rw [if_pos hb]; exact ih c
    · rw [if_neg hb]; exact ih b

theorem bestFold_max :
    ∀ (l : List (List (String × Json))) (acc : Option (List (String × Json)))
      (b : List (String × Json)),
      bestFold acc l = some b →
      (∀ c ∈ l, hintScore c ≤ hintScore b) ∧
      (b ∈ l ∨ acc = some b) ∧
      (∀ a, acc = some a → hintScore a ≤ hintScore b) := by
  intro l
  induction l with
  | nil =>
    intro acc b h
    refine ⟨by simp, Or.inr (by simpa [bestFold] using h), ?_⟩
    intro a ha
    rw [(by simpa [bestFold] using h : acc = some b)] at ha
    cases ha
    exact le_refl _
  | cons c t ih =>
    intro acc b h
    simp only [bestFold] at h
    set better := (match acc with
      | none => true
      | some b' =>
        hintScore c > hintScore b' ||
          (hintScore c == hintScore b' && (hasRoomsKey c && !hasRoomsKey b'))) with hbet
    obtain ⟨ht, hmem, hacc⟩ := ih (if better then some c else acc) b h
    have hcb : hintScore c ≤ hintScore b := by
      by_cases hb : better = true
      · exact hacc c (by rw [if_pos hb])
      · cases hav : acc with
        | none => rw [hav] at hbet; simp [hbet] at hb
        | some a0 =>
          rw [hav] at hbet
          have h1 : hintScore c ≤ hintScore a0 := by
            rw [hbet] at hb
            simp only [Bool.or_eq_true, Bool.and_eq_true, decide_eq_true_eq, beq_iff_eq,
              not_or, Bool.not_eq_true] at hb
            omega
          have h2 : hintScore a0 ≤ hintScore b := by
            apply hacc
            rw [if_neg hb, hav]
          omega
    refine ⟨?_, ?_, ?_⟩
    · intro d hd
      rcases List.mem_cons.mp hd with h | h
      · cases h; exact hcb
      · exact ht d h
    · rcases hmem with h | h
      · exact Or.inl (List.mem_cons_of_mem _ h)
      · by_cases hb : better = true
        · rw [if_pos hb] at h
          cases h
          exact Or.inl (List.mem_cons_self ..)
        · rw [if_neg hb] at h
          exact Or.inr h
    · intro a ha
      by_cases hb : better = true
      · cases hav : acc with
        | none => rw [hav] at ha; cases ha
        | some a0 =>
          rw [hav] at ha
          cases ha
          rw [hav] at hbet
          have h1 : hintScore a ≤ hintScore c := by
            rw [hbet] at hb
            simp only [Bool.or_eq_true, Bool.and_eq_true, decide_eq_true_eq, beq_iff_eq] at hb
            omega
          omega
      · exact hacc a (by rw [if_neg hb, ha])

/-- C1 (amended): a home dict that appears at the root, under `home`, under
`body.home`, or inside a `homes` list, and that the code counts as a
candidate (its first Python-truthy id among `id`, `_id`, `home_id` converts
to a string that is non-empty after stripping — which excludes a
whitespace-only id the claim would admit), makes
`_extract_home_from_homesdata` return a candidate dict of the payload with
the highest hint score; and when no dict anywhere in the tree is a
candidate, the method raises `IntuisApiError`. -/
theorem c1_extract_home (payload : Json) :
    (∀ o, homeAtClaimPosition payload o → isCandidateObj o = true →
      ∃ h, extract_home_from_homesdata payload = .ok h ∧
        h ∈ Json.allObjs payload ∧ isCandidateObj h = true ∧
        ∀ c ∈ Json.allObjs payload, isCandidateObj c = true →
          hintScore c ≤ hintScore h) ∧
    (allCandidates payload = [] →
      extract_home_from_homesdata payload = .error ()) := by
  constructor
  · intro o hpos hcand
    have hmem : o ∈ Json.allObjs payload := by
      rcases hpos with h | ⟨p, hp, hget⟩ | ⟨p, b, hp, hgb, hgh⟩ | ⟨p, items, hp, hget, hin⟩
      · rw [h]; simp [Json.allObjs]
      · rw [hp]
        simp only [Json.allObjs, List.mem_cons]
        exact Or.inr (mem_allObjs_get p "home" _ hget o (by simp [Json.allObjs]))
      · rw [hp]
        simp only [Json.allObjs, List.mem_cons]
        refine Or.inr (mem_allObjs_get p "body" _ hgb o ?_)
        simp only [Json.allObjs, List.mem_cons]
        exact Or.inr (mem_allObjs_get b "home" _ hgh o (by simp [Json.allObjs]))
      · rw [hp]
        simp only [Json.allObjs, List.mem_cons]
        refine Or.inr (mem_allObjs_get p "homes" _ hget o ?_)
        simpa [Json.allObjs] using
          mem_allObjs_item items _ hin o (by simp [Json.allObjs])
    have hfil : o ∈ allCandidates payload := List.mem_filter.mpr ⟨hmem, hcand⟩
    have hne : allCandidates payload ≠ [] := by
      intro h0; rw [h0] at hfil; simp at hfil
    obtain ⟨c0, t0, hct⟩ := List.exists_cons_of_ne_nil hne
    have hsome : (bestFold none (allCandidates payload)).isSome := by
      rw [hct]
      simp only [bestFold]
      simpa using bestFold_some_isSome t0 c0
    obtain ⟨best, hbest⟩ := Option.isSome_iff_exists.mp hsome
    obtain ⟨hmax, hbm, _⟩ := bestFold_max _ none best hbest
    have hbmem : best ∈ allCandidates payload := by
      rcases hbm with h | h
      · exact h
      · cases h
    refine ⟨best, ?_, (List.mem_filter.mp hbmem).1, (List.mem_filter.mp hbmem).2, ?_⟩
    · unfold extract_home_from_homesdata
      rw [hbest]
    · intro c hc hcc
      exact hmax c (List.mem_filter.mpr ⟨hc, hcc⟩)
  · intro hempty
    unfold extract_home_from_homesdata
    rw [hempty]
    simp only [bestFold]
    cases hs : searchF 33 payload with
    | none => rfl
    | some h =>
      obtain ⟨hmem, hlk⟩ := searchF_sound 33 payload h hs
      have : h ∈ allCandidates payload :=
        List.mem_filter.mpr ⟨hmem, looksLikeHome_isCandidate hlk⟩
      rw [hempty] at this
      simp at this

/-- C1, counterexample to the claim as stated: a payload whose root dict
carries the key `id` with the non-empty string value `" "` makes
`_extract_home_from_homesdata` raise `IntuisApiError` instead of returning a
home dict, because the code strips the id before testing it. -/
theorem c1_counterexample :
    extract_home_from_homesdata (.obj [("id", .str " ")]) = .error () ∧
      (" " : String) ≠ "" :=
  ⟨rfl, by decide⟩

/-- C1, witness: the amended theorem applied to a payload carrying a
well-formed home at the root. -/
theorem c1_witness :
    extract_home_from_homesdata (.obj [("id", .str "h1")]) =
      .ok [("id", .str "h1")] := by
  obtain ⟨h, he, hmem, hcand, hmax⟩ :=
    (c1_extract_home (.obj [("id", .str "h1")])).1 [("id", .str "h1")]
      (Or.inl rfl) (by decide)
  have hh : h = [("id", Json.str "h1")] := by
    simpa [Json.allObjs, allObjsFields] using hmem
  subst hh
  exact he

/-! ## OAuth token lifecycle (`IntuisHttpClient`, api.py 27-170)

`time.time()` becomes an explicit `now : Rat` argument; the outcome of each
`/oauth2/token` HTTP request becomes an `Except` input (`error` standing for
a raised `IntuisApiError`); the requests a method performs are returned as
an explicit list of grants so the theorems can speak about which and how
many token requests happen. -/

/-- The `_AuthState` dataclass: `access_token`, `refresh_token`,
`expires_at` (epoch seconds), each `None` initially. -/
structure AuthState where
  access_token : Option String
  refresh_token : Option String
  expires_at : Option Rat

/-- The fields of a token-endpoint JSON response that `_store_tokens` reads:
`access_token` and `refresh_token` (`none` models an absent key), and
`expires_in` (`some q` exactly when the value passes
`isinstance(expires_in, (int, float))`). -/
structure TokenData where
  access_token : Option String
  refresh_token : Option String
  expires_in : Option Rat

/-- `IntuisHttpClient._store_tokens`: the access token is overwritten by the
response value, the refresh token only when the response carries one
(`data.get("refresh_token", self._auth.refresh_token)`), and the expiry
becomes `now + expires_in`, defaulting to `now + 3600` when the response has
no numeric `expires_in`. -/
def store_tokens (st : AuthState) (now : Rat) (d : TokenData) : AuthState :=
  { access_token := d.access_token
    refresh_token :=
      match d.refresh_token with
      | some r => some r
      | none => st.refresh_token
    expires_at := some (now + d.expires_in.getD 3600) }

/-- `IntuisHttpClient._token_expiring`: a missing (or Python-falsy `0.0`)
expiry is expiring, otherwise the token is expiring from 60 seconds before
`expires_at`. -/
def token_expiring (st : AuthState) (now : Rat) : Bool :=
  match st.expires_at with
  | none => true
  | some e => if e = 0 then true else decide (now ≥ e - 60)

/-- Python truthiness of an optional string (`if self._auth.access_token`). -/
def truthyStr : Option String → Bool
  | none => false
  | some s => s ≠ ""

/-- A token request grant type, used to record which requests a call makes. -/
inductive Grant where
  | refreshGrant : Grant
  | passwordGrant : Grant
deriving DecidableEq

/-- `IntuisHttpClient.login`: up to three password-grant requests to
`/oauth2/token` (`for attempt in range(1, 4)`), unrolled; the outcome of the
n-th request is `results n`. A success is stored and returned, an
`IntuisApiError` is retried after a sleep, and after three failures
`IntuisApiError("Login failed: ...")` is raised. The returned list records
the requests performed, in order. All attempts share one `now`: the clock
only feeds the stored expiry, which no claim relates across attempts. -/
def login_run (st : AuthState) (now : Rat) (results : Nat → Except Unit TokenData) :
    Except Unit AuthState × List Grant :=
  match results 1 with
  | .ok d => (.ok (store_tokens st now d), [.passwordGrant])
  | .error _ =>
    match results 2 with
    | .ok d => (.ok (store_tokens st now d), [.passwordGrant, .passwordGrant])
    | .error _ =>
      match results 3 with
      | .ok d =>
        (.ok (store_tokens st now d), [.passwordGrant, .passwordGrant, .passwordGrant])
      | .error _ => (.error (), [.passwordGrant, .passwordGrant, .passwordGrant])

/-- `IntuisHttpClient.ensure_token`: nothing happens while a truthy access
token is not expiring; otherwise a held (truthy) refresh token is tried
first (`refreshRes` is the outcome of that request) and a raised
`IntuisApiError` falls back to `login`; with no refresh token `login` runs
directly. -/
def ensure_token (st : AuthState) (now : Rat)
    (refreshRes : Except Unit TokenData) (loginRes : Nat → Except Unit TokenData) :
    Except Unit AuthState × List Grant :=
  if truthyStr st.access_token && !token_expiring st now then (.ok st, [])
  else if truthyStr st.refresh_token then
    match refreshRes with
    | .ok d => (.ok (store_tokens st now d), [.refreshGrant])
    | .error _ =>
      let r := login_run st now loginRes
      (r.1, .refreshGrant :: r.2)
  else login_run st now loginRes

/-! ## HTTP request handling (`IntuisHttpClient._request_json`, api.py 60-97) -/

/-- What `_request_json` observes of an HTTP response: the status code and
the outcome of `resp.json(content_type=None)` (`none` models a body that
raises during JSON parsing). -/
structure HttpResponse where
  status : Nat
  parsedJson : Option Json

/-- `IntuisHttpClient._request_json` after the request is made: a status of
400 or above raises `IntuisApiError` with the error text, otherwise the
parsed JSON body is returned, and a body that fails to parse raises
`IntuisApiError("Invalid JSON from ...")`. -/
def request_json (r : HttpResponse) : Except Unit Json :=
  if r.status ≥ 400 then .error ()
  else
    match r.parsedJson with
    | some j => .ok j
    | none => .error ()

/-! ## Coordinator polling (`IntuisCoordinator._async_update_data`,
coordinator.py 26-62) -/

/-- The outcomes of the sub-calls one poll makes, in the order the source
awaits them: `async_authenticate`, `get_home_id`, `homestatus`, then
`gethomemeasure` with `rtype="energy"` and, only when that raises
`IntuisApiError`, `gethomemeasure` without a type. -/
structure CoordInputs where
  authRes : Except Unit Unit
  homeIdRes : Except Unit String
  statusRes : Except Unit Json
  measEnergyRes : Except Unit Json
  measPlainRes : Except Unit Json

/-- `IntuisCoordinator._async_update_data`: every raised `IntuisApiError`
surfaces as `UpdateFailed` (the `error` result), except that a failing
energy-typed `gethomemeasure` is retried once without a type; a successful
poll returns the dict `\x7b"home_id": ..., "status": ..., "measures": ...\x7d`. -/
def coordinator_update (i : CoordInputs) : Except Unit Json :=
  match i.authRes with
  | .error _ => .error ()
  | .ok _ =>
    match i.homeIdRes with
    | .error _ => .error ()
    | .ok hid =>
      match i.statusRes with
      | .error _ => .error ()
      | .ok status =>
        match
          (match i.measEnergyRes with
           | .ok m => Except.ok m
           | .error _ => i.measPlainRes) with
        | .error _ => .error ()
        | .ok meas =>
          .ok (.obj [("home_id", .str hid), ("status", status), ("measures", meas)])

/-- The platforms the config entry forwards to
(`PLATFORMS: Final = ["sensor", "climate"]` in `__init__.py`). -/
def PLATFORMS : List String := ["sensor", "climate"]

/-! ## Climate mode mapping (`climate.room_mode_to_hvac_and_preset`,
climate.py 88-107) -/

/-- The `HVACMode` constants the mapping returns. -/
inductive HVACMode where
  | auto : HVACMode
  | heat : HVACMode
  | off : HVACMode
deriving DecidableEq

/-- `climate.room_mode_to_hvac_and_preset`: `rm = (room_mode or "").lower()`,
`hm = (home_mode or "").lower() if home_mode else None`, then the explicit
case ladder of the source; presets are the strings `"home"`, `"away"`,
`"hg"`. `none` inputs model Python `None` arguments. -/
def room_mode_to_hvac_and_preset (room_mode home_mode : Option String) :
    HVACMode × Option String :=
  let rm := pyLower (room_mode.getD "")
  let hm : Option String :=
    match home_mode with
    | none => none
    | some h => if h = "" then none else some (pyLower h)
  if rm = "off" then (.off, none)
  else if rm = "manual" then (.heat, none)
  else if rm = "away" then (.auto, some "away")
  else if rm = "hg" then (.heat, some "hg")
  else if rm = "home" then
    if hm = some "hg" then (.heat, some "hg")
    else if hm = some "away" then (.auto, some "away")
    else (.auto, some "home")
  else (.auto, none)

/-! ## Room lookup in payloads (climate.py 35-48, sensor.py 147-175)

The two modules carry their own copies of `_find_room_in_payload`; both look
under `body.home.rooms` first and then under a root `rooms` key, but the
climate copy matches `str(r.get("id"))` against `str(room_id)` while the
sensor copy matches `str(r.get("id") or r.get("_id") or "")`. A non-dict
element of a rooms list would raise `AttributeError` in Python at
`r.get(...)`; the embeddings skip such an element, and no theorem below
instantiates one. -/

/-- The room-matching loop of `climate._find_room_in_payload`:
`str(r.get("id")) == str(room_id)` (the callers pass `room_id` as the string
it was built from, so `str(room_id)` is `room_id` itself). -/
def climateFindInList (room_id : String) : List Json → Option (List (String × Json))
  | [] => none
  | .obj r :: t =>
    if pyStr (getN r "id") = room_id then some r else climateFindInList room_id t
  | _ :: t => climateFindInList room_id t

/-- `climate._find_room_in_payload` (climate.py 35-48). The second loop runs
over `payload.get("rooms", []) or []`; a truthy non-list there would raise
in Python and is mapped to the empty search. -/
def climateFindRoom (payload : Json) (room_id : String) :
    Option (List (String × Json)) :=
  match payload with
  | .obj p =>
    let fromBody :=
      match JObj.get p "body" with
      | some (.obj b) =>
        match JObj.get b "home" with
        | some (.obj h) =>
          match JObj.get h "rooms" with
          | some (.arr rooms) => climateFindInList room_id rooms
          | _ => none
        | _ => none
      | _ => none
    match fromBody with
    | some r => some r
    | none =>
      match pyOr (getN p "rooms") (.arr []) with
      | .arr rooms => climateFindInList room_id rooms
      | _ => none
  | _ => none

/-- The room-matching loop of `sensor._find_room_in_payload`:
`str(r.get("id") or r.get("_id") or "") == room_id`. -/
def sensorFindInList (room_id : String) : List Json → Option (List (String × Json))
  | [] => none
  | .obj r :: t =>
    if pyStr (pyOr (getN r "id") (pyOr (getN r "_id") (.str ""))) = room_id then some r
    else sensorFindInList room_id t
  | _ :: t => sensorFindInList room_id t

/-- `sensor._find_room_in_payload` (sensor.py 147-166): `body.home.rooms`
first when it is a list, then a root `rooms` list. -/
def sensorFindRoom (payload : Json) (room_id : String) :
    Option (List (String × Json)) :=
  match payload with
  | .obj p =>
    let fromBody :=
      match JObj.get p "body" with
      | some (.obj b) =>
        match JObj.get b "home" with
        | some (.obj h) =>
          match JObj.get h "rooms" with
          | some (.arr rooms) => sensorFindInList room_id rooms
          | _ => none
        | _ => none
      | _ => none
    match fromBody with
    | some r => some r
    | none =>
      match JObj.get p "rooms" with
      | some (.arr rooms) => sensorFindInList room_id rooms
      | _ => none
  | _ => none

/-- `sensor._get_room_field` (sensor.py 169-175): the field of the found
room when its value is scalar (`isinstance(v, (int, float, str, bool))`),
else `None`. -/
def get_room_field (payload : Json) (room_id field : String) : Option Json :=
  match sensorFindRoom payload room_id with
  | some r =>
    match JObj.get r field with
    | some v => if isScalar v then some v else none
    | none => none
  | none => none

/-! ## Schedule fallback (`sensor._get_room_setpoint_from_configs`,
sensor.py 178-217) -/

/-- The `selected` scan of `_get_room_setpoint_from_configs`: the first
schedule with `sch.get("selected") is True`. -/
def findSelectedTrue : List Json → Option Json
  | [] => none
  | .obj s :: t =>
    match JObj.get s "selected" with
    | some (.bool true) => some (.obj s)
    | _ => findSelectedTrue t
  | _ :: t => findSelectedTrue t

/-- The `rooms_temp` scan inside one zone: the first entry whose
`str(rt.get("room_id"))` matches and whose `temp` is numeric is returned;
a matching entry with a non-numeric `temp` is passed over. -/
def zoneRoomsTempScan (room_id : String) : List Json → Option Rat
  | [] => none
  | .obj rt :: t =>
    if pyStr (getN rt "room_id") = room_id then
      match JObj.get rt "temp" with
      | some (.num q) => some q
      | some (.bool b) => some (if b then 1 else 0)
      | _ => zoneRoomsTempScan room_id t
    else zoneRoomsTempScan room_id t
  | _ :: t => zoneRoomsTempScan room_id t

/-- The `for z in zones` loop: each zone contributes its `rooms_temp` list
when that is a list. -/
def zonesScan (room_id : String) : List Json → Option Rat
  | [] => none
  | .obj z :: t =>
    match JObj.get z "rooms_temp" with
    | some (.arr rtemps) =>
      match zoneRoomsTempScan room_id rtemps with
      | some q => some q
      | none => zonesScan room_id t
    | _ => zonesScan room_id t
  | _ :: t => zonesScan room_id t

/-- The trailing `for r in selected.get("rooms")` loop: the first room with a
matching `str(r.get("id"))` and a numeric `therm_setpoint_temperature`. -/
def selectedRoomsScan (room_id : String) : List Json → Option Rat
  | [] => none
  | .obj r :: t =>
    if pyStr (getN r "id") = room_id then
      match JObj.get r "therm_setpoint_temperature" with
      | some (.num q) => some q
      | some (.bool b) => some (if b then 1 else 0)
      | _ => selectedRoomsScan room_id t
    else selectedRoomsScan room_id t
  | _ :: t => selectedRoomsScan room_id t

/-- `sensor._get_room_setpoint_from_configs` (sensor.py 178-217): dig to
`configs["body"]["home"]`, take `therm_schedules or schedules` when a list,
pick the first schedule marked `selected is True` (else the first element),
then scan the `rooms_temp` entries of its zones and finally its `rooms`.
A selected schedule whose `zones` value is not a list returns `None` at once
(`if not isinstance(zones, list): return None`, sensor.py 199-201); the
`rooms` fallback scan runs only after a zones list yielded no match. -/
def get_room_setpoint_from_configs (configs : Json) (room_id : String) :
    Option Rat :=
  match configs with
  | .obj c =>
    match JObj.get c "body" with
    | some (.obj b) =>
      match JObj.get b "home" with
      | some (.obj h) =>
        match pyOr (getN h "therm_schedules") (getN h "schedules") with
        | .arr scheds =>
          let selected :=
            match findSelectedTrue scheds with
            | some s => some s
            | none => scheds.head?
          match selected with
          | some (.obj sel) =>
            match JObj.get sel "zones" with
            | some (.arr zones) =>
              match zonesScan room_id zones with
              | some q => some q
              | none =>
                match JObj.get sel "rooms" with
                | some (.arr rooms) => selectedRoomsScan room_id rooms
                | _ => none
            | _ => none
          | _ => none
        | _ => none
      | _ => none
    | _ => none
  | _ => none

/-! ## Sensor platform setup (`sensor.async_setup_entry`, sensor.py 37-123)

Only the per-room measured/setpoint/mode sensor creation is embedded (lines
76-121); the gateway diagnostics entities do not appear in any claim. -/

/-- The exposed setpoint of one room (sensor.py 97-109): the
`therm_setpoint_temperature` status field when present as a scalar, else the
schedule fallback; the entity is created only when the outcome is numeric. -/
def sensor_room_setpoint (status configs : Json) (room_id : String) : Option Rat :=
  match get_room_field status room_id "therm_setpoint_temperature" with
  | some v => asPyNumber v
  | none => get_room_setpoint_from_configs configs room_id

/-- The exposed measured temperature of one room (sensor.py 83-95): the
`therm_measured_temperature` status field, falling back to the same field of
the room record from the home object; numeric outcomes create the entity. -/
def sensor_room_measured (status : Json) (roomRec : List (String × Json))
    (room_id : String) : Option Rat :=
  match get_room_field status room_id "therm_measured_temperature" with
  | some v => asPyNumber v
  | none =>
    match JObj.get roomRec "therm_measured_temperature" with
    | some v => asPyNumber v
    | none => none

/-- The exposed mode of one room (sensor.py 111-121): the
`therm_setpoint_mode` status field when it is a string. -/
def sensor_room_mode (status : Json) (room_id : String) : Option String :=
  match get_room_field status room_id "therm_setpoint_mode" with
  | some (.str s) => some s
  | _ => none

/-- The per-room loop of `sensor.async_setup_entry` restricted to the
measured-temperature sensors it creates: each created
`IntuisRoomTempSensor` is recorded as its room id paired with the `value`
the constructor captures. The room id is
`str(room.get("id") or room.get("_id") or "")`, and a blank id skips the
room. -/
def measuredEntitiesLoop (status : Json) : List Json → List (String × Rat)
  | [] => []
  | .obj room :: t =>
    let rid := pyStr (pyOr (getN room "id") (pyOr (getN room "_id") (.str "")))
    if rid = "" then measuredEntitiesLoop status t
    else
      match sensor_room_measured status room rid with
      | some q => (rid, q) :: measuredEntitiesLoop status t
      | none => measuredEntitiesLoop status t
  | _ :: t => measuredEntitiesLoop status t

/-- The measured-temperature sensors `sensor.async_setup_entry` creates from
one coordinator data dict: `home = payload.get("home") or \x7b\x7d`,
`status = payload.get("status") or \x7b\x7d`,
`rooms = home.get("rooms", []) if isinstance(home, dict) else []`, then the
per-room loop. -/
def sensor_measured_entities (data : Json) : List (String × Rat) :=
  let payload := pyOr data (.obj [])
  let home := pyOr (getAny payload "home") (.obj [])
  let status := pyOr (getAny payload "status") (.obj [])
  let rooms :=
    match home with
    | .obj h =>
      match JObj.get h "rooms" with
      | some r => r
      | none => .arr []
    | _ => .arr []
  match rooms with
  | .arr l => measuredEntitiesLoop status l
  | _ => []

/-- `IntuisRoomTempSensor.native_value` (sensor.py 271-281): the constructor
stores `self._value = float(value)` and the property returns that stored
value; the coordinator data current at access time (the second argument) is
not consulted. -/
def room_temp_sensor_native_value (storedValue : Rat) (_currentData : Json) : Rat :=
  storedValue

/-! ## Climate platform (`climate.async_setup_entry` and
`IntuisRoomClimate.current_temperature`, climate.py 110-160) -/

/-- The per-room loop of `climate.async_setup_entry` (climate.py 124-129):
each created `IntuisRoomClimate` is recorded as its room id paired with its
name; `room_id = str(room.get("id") or "")` and a blank id skips the room,
`room_name = room.get("name") or f"Room \x7broom_id\x7d"`. -/
def climateEntitiesLoop : List Json → List (String × String)
  | [] => []
  | .obj room :: t =>
    let rid := pyStr (pyOr (getN room "id") (.str ""))
    if rid = "" then climateEntitiesLoop t
    else
      (rid, pyStr (pyOr (getN room "name") (.str ("Room " ++ rid)))) ::
        climateEntitiesLoop t
  | _ :: t => climateEntitiesLoop t

/-- The climate entities `climate.async_setup_entry` creates from one
coordinator data dict (climate.py 118-130): `home = payload.get("home") or
\x7b\x7d`, `rooms = home.get("rooms", []) if isinstance(home, dict) else []`. -/
def climate_setup_rooms (data : Json) : List (String × String) :=
  let payload := pyOr data (.obj [])
  let home := pyOr (getAny payload "home") (.obj [])
  let rooms :=
    match home with
    | .obj h =>
      match JObj.get h "rooms" with
      | some r => r
      | none => .arr []
    | _ => .arr []
  match rooms with
  | .arr l => climateEntitiesLoop l
  | _ => []

/-- `IntuisRoomClimate.current_temperature` (climate.py 155-160): read
`status` out of the coordinator data current at the time of the property
access, find the room in it, and return its `therm_measured_temperature`
when `isinstance(v, (int, float))`. -/
def climate_current_temperature (data : Json) (room_id : String) : Option Rat :=
  let status := pyOr (getAny (pyOr data (.obj [])) "status") (.obj [])
  match climateFindRoom status room_id with
  | some r => asPyNumber (getN r "therm_measured_temperature")
  | none => none

/-! ## Home cache (`IntuisApi.get_home` / `get_home_id`, api.py 489-524)

`self._home_cache` becomes an explicit `Option` state threaded through the
operations; each operation additionally takes the outcome of the
`get_homesdata` HTTP fetch it would make and reports, besides its result and
the new cache, whether it performed that network request. -/

/-- The cache guard of `get_home`:
`isinstance(cached, dict) and str(cached.get("id", "")).strip()` (the cache
always holds a dict here, so the `isinstance` is the `some` case). -/
def home_cached_ok (c : List (String × Json)) : Bool :=
  pystrip (pyStr ((JObj.get c "id").getD (.str ""))) ≠ ""

/-- The id a home dict yields in `get_home` and `get_home_id`:
`str(h.get("id") or h.get("_id") or h.get("home_id") or "").strip()`. -/
def homeIdOf (h : List (String × Json)) : String :=
  pystrip (pyStr (pyOr (getN h "id")
    (pyOr (getN h "_id") (pyOr (getN h "home_id") (.str "")))))

/-- The tail of `get_home` (api.py 512-524): `normalized = dict(home)`, a
blank stripped id raises, otherwise `normalized["id"] = hid` and the result
is cached. -/
def normalize_home (home : List (String × Json)) : Option (List (String × Json)) :=
  let hid := homeIdOf home
  if hid = "" then none else some (JObj.set home "id" (.str hid))

/-- The fetch-and-extract path of `get_home` (api.py 506-524), reached when
the cache guard fails: `get_homesdata`, then
`_extract_home_from_homesdata`, then normalization; every failure raises
`IntuisApiError` with the cache untouched. -/
def get_home_fetch (cache : Option (List (String × Json)))
    (fetch : Except Unit Json) :
    Except Unit (List (String × Json)) × Option (List (String × Json)) × Bool :=
  match fetch with
  | .error _ => (.error (), cache, true)
  | .ok payload =>
    match extract_home_from_homesdata payload with
    | .error _ => (.error (), cache, true)
    | .ok home =>
      match normalize_home home with
      | none => (.error (), cache, true)
      | some n => (.ok n, some n, true)

/-- `IntuisApi.get_home` (api.py 501-524): a cached dict whose `id` strips
to a non-empty string is returned as is, without a network request. -/
def get_home_step (cache : Option (List (String × Json)))
    (fetch : Except Unit Json) :
    Except Unit (List (String × Json)) × Option (List (String × Json)) × Bool :=
  match cache with
  | some c => if home_cached_ok c then (.ok c, some c, false) else get_home_fetch cache fetch
  | none => get_home_fetch none fetch

/-- `IntuisApi.get_home_id` (api.py 489-499): a Python-truthy (non-empty)
cached dict whose id chain strips to a non-empty string answers directly;
otherwise `get_home` runs and its id chain is read, a blank one raising
`IntuisApiError`. -/
def get_home_id_step (cache : Option (List (String × Json)))
    (fetch : Except Unit Json) :
    Except Unit String × Option (List (String × Json)) × Bool :=
  let quick : Option String :=
    match cache with
    | some c =>
      if c.isEmpty then none
      else if homeIdOf c ≠ "" then some (homeIdOf c) else none
    | none => none
  match quick with
  | some hid => (.ok hid, cache, false)
  | none =>
    match get_home_step cache fetch with
    | (.error _, c2, net) => (.error (), c2, net)
    | (.ok home, c2, net) =>
      if homeIdOf home = "" then (.error (), c2, net) else (.ok (homeIdOf home), c2, net)

/-- An `IntuisApi` operation touching the home cache, carrying the outcome
of the `get_homesdata` fetch it would perform. -/
inductive ApiOp where
  | getHomeOp (fetch : Except Unit Json) : ApiOp
  | getHomeIdOp (fetch : Except Unit Json) : ApiOp

/-- The cache after one operation. -/
def runOp (cache : Option (List (String × Json))) : ApiOp →
    Option (List (String × Json))
  | .getHomeOp f => (get_home_step cache f).2.1
  | .getHomeIdOp f => (get_home_id_step cache f).2.1

/-- The home-cache invariant of the claim: a set cache holds a dict whose
`id` key is a non-empty, whitespace-trimmed string. -/
def CacheInv (cache : Option (List (String × Json))) : Prop :=
  ∀ c, cache = some c →
    ∃ s, JObj.get c "id" = some (.str s) ∧ pystrip s = s ∧ s ≠ ""

theorem dropWhile_concat_ne {a : Char} (ha : isPySpace a = false) :
    ∀ l : List Char, ∃ l2, (l ++ [a]).dropWhile isPySpace = l2 ++ [a] := by
  intro l
  induction l with
  | nil => exact ⟨[], by simp [List.dropWhile_cons, ha]⟩
  | cons b t ih =>
    cases hb : isPySpace b
    · exact ⟨b :: t, by simp [List.dropWhile_cons, hb]⟩
    · obtain ⟨l2, hl2⟩ := ih
      exact ⟨l2, by simp [List.dropWhile_cons, hb, hl2]⟩

theorem dropRightSpace_no_leading {l : List Char}
    (h : l.dropWhile isPySpace = l) :
    (dropRightSpace l).dropWhile isPySpace = dropRightSpace l := by
  cases l with
  | nil => simp [dropRightSpace]
  | cons a t =>
    have ha : ¬isPySpace ((a :: t).get ⟨0, by simp⟩) = true :=
      List.dropWhile_eq_self_iff.mp h (by simp)
    have ha2 : isPySpace a = false := by simpa using ha
    obtain ⟨l2, hl2⟩ := dropWhile_concat_ne ha2 t.reverse
    have : dropRightSpace (a :: t) = a :: l2.reverse := by
      rw [dropRightSpace, List.reverse_cons, hl2, List.reverse_append]
      simp
    rw [this]
    simp [List.dropWhile_cons, ha2]

theorem dropRightSpace_idem (l : List Char) :
    dropRightSpace (dropRightSpace l) = dropRightSpace l := by
  unfold dropRightSpace
  rw [List.reverse_reverse, List.dropWhile_idempotent]

theorem pystrip_idem (s : String) : pystrip (pystrip s) = pystrip s := by
  show String.mk (dropRightSpace ((String.mk
      (dropRightSpace (s.toList.dropWhile isPySpace))).toList.dropWhile isPySpace)) =
    String.mk (dropRightSpace (s.toList.dropWhile isPySpace))
  have htl : (String.mk (dropRightSpace (s.toList.dropWhile isPySpace))).toList =
      dropRightSpace (s.toList.dropWhile isPySpace) := rfl
  rw [htl, dropRightSpace_no_leading (List.dropWhile_idempotent isPySpace s.toList),
    dropRightSpace_idem]

theorem get_set_same :
    ∀ (fields : List (String × Json)) (k : String) (v : Json),
      JObj.get (JObj.set fields k v) k = some v := by
  intro fields
  induction fields with
  | nil => intro k v; simp [JObj.set, JObj.get]
  | cons kv t ih =>
    intro k v
    obtain ⟨k', v'⟩ := kv
    by_cases hk : k' = k
    · simp [JObj.set, JObj.get, hk]
    · simp only [JObj.set, if_neg hk, JObj.get]
      exact ih k v

theorem cacheInv_id {c : List (String × Json)} {s : String}
    (hid : JObj.get c "id" = some (.str s)) (hst : pystrip s = s) (hne : s ≠ "") :
    home_cached_ok c = true ∧ homeIdOf c = s := by
  constructor
  · unfold home_cached_ok
    rw [hid]
    simp only [Option.getD_some, pyStr, hst]
    simpa using hne
  · unfold homeIdOf
    unfold getN
    rw [hid]
    simp only [Option.getD_some]
    rw [pyOr]
    have : pyTruthy (.str s) = true := by simpa [pyTruthy] using hne
    rw [if_pos this]
    simpa [pyStr] using hst

theorem normalize_home_inv {home n : List (String × Json)}
    (h : normalize_home home = some n) :
    ∃ s, JObj.get n "id" = some (.str s) ∧ pystrip s = s ∧ s ≠ "" ∧
      homeIdOf home = s := by
  unfold normalize_home at h
  by_cases hid : homeIdOf home = ""
  · rw [if_pos hid] at h; cases h
  · rw [if_neg hid] at h
    cases h
    refine ⟨homeIdOf home, get_set_same home "id" _, ?_, hid, rfl⟩
    unfold homeIdOf
    exact pystrip_idem _

theorem get_home_fetch_inv {cache : Option (List (String × Json))}
    {fetch : Except Unit Json} (hinv : CacheInv cache) :
    CacheInv (get_home_fetch cache fetch).2.1 ∧
      ((get_home_fetch cache fetch).1 = .error () →
        (get_home_fetch cache fetch).2.1 = cache) := by
  unfold get_home_fetch
  cases fetch with
  | error e => exact ⟨hinv, fun _ => rfl⟩
  | ok payload =>
    dsimp only
    cases hx : extract_home_from_homesdata payload with
    | error e => dsimp only; exact ⟨hinv, fun _ => rfl⟩
    | ok home =>
      dsimp only
      cases hn : normalize_home home with
      | none => dsimp only; exact ⟨hinv, fun _ => rfl⟩
      | some n =>
        dsimp only
        refine ⟨?_, fun h => by simp at h⟩
        intro c hc
        cases hc
        obtain ⟨s, h1, h2, h3, _⟩ := normalize_home_inv hn
        exact ⟨s, h1, h2, h3⟩

theorem get_home_step_inv {cache : Option (List (String × Json))}
    {fetch : Except Unit Json} (hinv : CacheInv cache) :
    CacheInv (get_home_step cache fetch).2.1 := by
  cases cache with
  | none =>
    unfold get_home_step
    exact (get_home_fetch_inv (by intro c h; cases h)).1
  | some c =>
    unfold get_home_step
    dsimp only
    by_cases hok : home_cached_ok c = true
    · rw [if_pos hok]
      intro c2 hc2
      cases hc2
      exact hinv c rfl
    · rw [if_neg hok]
      exact (get_home_fetch_inv hinv).1

theorem get_home_id_step_inv {cache : Option (List (String × Json))}
    {fetch : Except Unit Json} (hinv : CacheInv cache) :
    CacheInv (get_home_id_step cache fetch).2.1 := by
  have hstep : CacheInv (get_home_step cache fetch).2.1 := get_home_step_inv hinv
  unfold get_home_id_step
  dsimp only
  cases hq : (match cache with
    | some c =>
      if c.isEmpty then none
      else if homeIdOf c ≠ "" then some (homeIdOf c) else none
    | none => (none : Option String)) with
  | some hid =>
    dsimp only
    exact hinv
  | none =>
    dsimp only
    rcases hs : get_home_step cache fetch with ⟨r, c2, net⟩
    rw [hs] at hstep
    cases r with
    | error e => exact hstep
    | ok home =>
      dsimp only
      by_cases hid : homeIdOf home = ""
      · rw [if_pos hid]
        exact hstep
      · rw [if_neg hid]
        exact hstep

/-- C9: the home-cache invariant. The empty cache satisfies it, every
`get_home` / `get_home_id` operation preserves it (so it holds after any
sequence of operations from the initial `None` cache); under it a set cache
makes `get_home` return the cached dict unchanged with no network request
and `get_home_id` return exactly the cached id string; and when the cache
is unset, a fetch whose extraction fails raises and leaves the cache unset. -/
theorem c9_home_cache (cache : Option (List (String × Json)))
    (c : List (String × Json)) (s : String) (fetch : Except Unit Json)
    (payload : Json) (ops : List ApiOp) :
    CacheInv none
  ∧ (CacheInv cache → CacheInv (runOp cache (.getHomeOp fetch))
      ∧ CacheInv (runOp cache (.getHomeIdOp fetch)))
  ∧ CacheInv (ops.foldl runOp none)
  ∧ (CacheInv (some c) →
      get_home_step (some c) fetch = (.ok c, some c, false))
  ∧ (JObj.get c "id" = some (.str s) → pystrip s = s → s ≠ "" →
      get_home_id_step (some c) fetch = (.ok s, some c, false))
  ∧ (extract_home_from_homesdata payload = .error () →
      get_home_step none (.ok payload) = (.error (), none, true)) := by
  have hbase : CacheInv none := by intro c0 h; cases h
  have hpres : ∀ (ca : Option (List (String × Json))) (op : ApiOp),
      CacheInv ca → CacheInv (runOp ca op) := by
    intro ca op hinv
    cases op with
    | getHomeOp f => exact get_home_step_inv hinv
    | getHomeIdOp f => exact get_home_id_step_inv hinv
  refine ⟨hbase, fun h => ⟨hpres _ _ h, hpres _ _ h⟩, ?_, ?_, ?_, ?_⟩
  · have : ∀ (l : List ApiOp) (ca : Option (List (String × Json))),
        CacheInv ca → CacheInv (l.foldl runOp ca) := by
      intro l
      induction l with
      | nil => intro ca h; exact h
      | cons op t ih =>
        intro ca h
        exact ih _ (hpres ca op h)
    exact this ops none hbase
  · intro hinv
    obtain ⟨s0, h1, h2, h3⟩ := hinv c rfl
    unfold get_home_step
    dsimp only
    rw [if_pos (cacheInv_id h1 h2 h3).1]
  · intro h1 h2 h3
    unfold get_home_id_step
    have hids := (cacheInv_id h1 h2 h3).2
    have hne : ¬c.isEmpty = true := by
      cases c with
      | nil => simp [JObj.get] at h1
      | cons kv t => simp
    dsimp only
    rw [if_neg hne, hids]
    rw [if_pos (by simpa using h3)]
  · intro hx
    unfold get_home_step get_home_fetch
    dsimp only
    rw [hx]

/-- C9, witness: the invariant theorem applied to a concrete cached home. -/
theorem c9_witness :
    get_home_step (some [("id", .str "h1")]) (.error ()) =
        (.ok [("id", .str "h1")], some [("id", .str "h1")], false) ∧
      get_home_id_step (some [("id", .str "h1")]) (.error ()) =
        (.ok "h1", some [("id", .str "h1")], false) := by
  have h := c9_home_cache (some [("id", .str "h1")]) [("id", .str "h1")] "h1"
    (.error ()) .null []
  refine ⟨h.2.2.2.1 ?_, h.2.2.2.2.1 rfl (by decide) (by decide)⟩
  intro c0 hc0
  cases hc0
  exact ⟨"h1", rfl, by decide, by decide⟩

/-- C2, counterexample: a successful poll through
`IntuisCoordinator._async_update_data` returns a dict with no `home` key and
no home record among its values (here the home that produced id `"h1"` is
`\x7b"id": "h1", "rooms": [...]\x7d`; the returned values are the id string
and the two payloads) — the coordinator stores only `home_id`, never the
home record itself. -/
theorem c2_counterexample :
    coordinator_update
        ⟨.ok (), .ok "h1", .ok (.str "status-payload"), .ok (.str "measures-payload"),
          .ok .null⟩ =
      .ok (.obj [("home_id", .str "h1"), ("status", .str "status-payload"),
        ("measures", .str "measures-payload")])
  ∧ JObj.get [("home_id", Json.str "h1"), ("status", .str "status-payload"),
      ("measures", .str "measures-payload")] "home" = none
  ∧ Json.obj [("id", .str "h1"), ("rooms", .arr [.obj [("id", .str "r1")]])] ∉
      JObj.valuesList [("home_id", Json.str "h1"), ("status", .str "status-payload"),
        ("measures", .str "measures-payload")] :=
  ⟨rfl, rfl, by simp [JObj.valuesList]⟩

/-- C2 (amended): a successful poll returns the single dict
`\x7b"home_id": ..., "status": ..., "measures": ...\x7d` holding the home id
string, the homestatus payload and the gethomemeasure payload (the energy
measure when that request succeeds, else the untyped retry) — not the home
record itself. -/
theorem c2_update_merges (i : CoordInputs) (hid : String) (status meas : Json)
    (h1 : i.authRes = .ok ()) (h2 : i.homeIdRes = .ok hid)
    (h3 : i.statusRes = .ok status)
    (h4 : i.measEnergyRes = .ok meas ∨
      (i.measEnergyRes = .error () ∧ i.measPlainRes = .ok meas)) :
    coordinator_update i =
      .ok (.obj [("home_id", .str hid), ("status", status), ("measures", meas)]) := by
  obtain ⟨a, b, c, d, e⟩ := i
  simp only at h1 h2 h3 h4
  subst h1 h2 h3
  unfold coordinator_update
  rcases h4 with h4 | ⟨h4, h5⟩
  · subst h4; rfl
  · subst h4; subst h5; rfl

/-- C2, witness: the amended theorem at a concrete successful poll. -/
theorem c2_witness :
    coordinator_update
        ⟨.ok (), .ok "h1", .ok (.obj [("body", .null)]), .error (), .ok (.num 5)⟩ =
      .ok (.obj [("home_id", .str "h1"), ("status", .obj [("body", .null)]),
        ("measures", .num 5)]) :=
  c2_update_merges _ "h1" (.obj [("body", .null)]) (.num 5) rfl rfl rfl
    (Or.inr ⟨rfl, rfl⟩)

/-- C3: the room of a successfully polled home is never exposed. The status
payload of this poll carries room `r1` with a measured temperature (and
`_get_room_field` can see it there), yet the climate platform setup creates
no entities, because it reads the rooms from `data["home"]["rooms"]` and the
coordinator never stores a `home` key; the sensor platform setup creates no
per-room sensors for the same reason; and the `binary_sensor` and `select`
platforms are not in the `PLATFORMS` list the config entry forwards to, so
their setups never run. -/
theorem c3_rooms_not_exposed :
    coordinator_update
        ⟨.ok (), .ok "h1",
          .ok (.obj [("body", .obj [("home", .obj [("rooms", .arr
            [.obj [("id", .str "r1"), ("name", .str "Salon"),
              ("therm_measured_temperature", .num 21)]])])])]),
          .ok (.str "meas"), .ok .null⟩ =
      .ok (.obj [("home_id", .str "h1"),
        ("status", .obj [("body", .obj [("home", .obj [("rooms", .arr
          [.obj [("id", .str "r1"), ("name", .str "Salon"),
            ("therm_measured_temperature", .num 21)]])])])]),
        ("measures", .str "meas")])
  ∧ get_room_field
      (.obj [("body", .obj [("home", .obj [("rooms", .arr
        [.obj [("id", .str "r1"), ("name", .str "Salon"),
          ("therm_measured_temperature", .num 21)]])])])])
      "r1" "therm_measured_temperature" = some (.num 21)
  ∧ climate_setup_rooms
      (.obj [("home_id", .str "h1"),
        ("status", .obj [("body", .obj [("home", .obj [("rooms", .arr
          [.obj [("id", .str "r1"), ("name", .str "Salon"),
            ("therm_measured_temperature", .num 21)]])])])]),
        ("measures", .str "meas")]) = []
  ∧ sensor_measured_entities
      (.obj [("home_id", .str "h1"),
        ("status", .obj [("body", .obj [("home", .obj [("rooms", .arr
          [.obj [("id", .str "r1"), ("name", .str "Salon"),
            ("therm_measured_temperature", .num 21)]])])])]),
        ("measures", .str "meas")]) = []
  ∧ "binary_sensor" ∉ PLATFORMS ∧ "select" ∉ PLATFORMS :=
  ⟨rfl, rfl, rfl, rfl, by decide, by decide⟩

/-- C4, counterexample: the claim says a failing vendor-API operation raises
without any retry of its own, but when the first `/oauth2/token`
password request raises `IntuisApiError`, `login` sleeps, performs a second
request and returns its success — two requests, no raise. -/
theorem c4_counterexample :
    login_run ⟨none, none, none⟩ 0
        (fun n => if n = 1 then .error () else .ok ⟨some "tok", some "ref", some 3600⟩) =
      (.ok (store_tokens ⟨none, none, none⟩ 0 ⟨some "tok", some "ref", some 3600⟩),
        [.passwordGrant, .passwordGrant]) := rfl

/-- C4 (amended): failures generally surface as `IntuisApiError` (and
`UpdateFailed` in the coordinator), but the code has three recovery paths of
its own: `login` retries the token request up to three times before raising;
`ensure_token` falls back from a failed refresh grant to a password login;
and the coordinator retries a failed energy-typed `gethomemeasure` without a
type before giving up. -/
theorem c4_failure_recovery :
    (∀ (st : AuthState) (now : Rat) (d : TokenData)
        (res : Nat → Except Unit TokenData),
      res 1 = .error () → res 2 = .ok d →
      login_run st now res =
        (.ok (store_tokens st now d), [.passwordGrant, .passwordGrant]))
  ∧ (∀ (st : AuthState) (now : Rat) (res : Nat → Except Unit TokenData),
      res 1 = .error () → res 2 = .error () → res 3 = .error () →
      login_run st now res =
        (.error (), [.passwordGrant, .passwordGrant, .passwordGrant]))
  ∧ (∀ (st : AuthState) (now : Rat) (d : TokenData)
        (res : Nat → Except Unit TokenData),
      (truthyStr st.access_token && !token_expiring st now) = false →
      truthyStr st.refresh_token = true → res 1 = .ok d →
      ensure_token st now (.error ()) res =
        (.ok (store_tokens st now d), [.refreshGrant, .passwordGrant]))
  ∧ (∀ (i : CoordInputs) (hid : String) (status meas : Json),
      i.authRes = .ok () → i.homeIdRes = .ok hid → i.statusRes = .ok status →
      i.measEnergyRes = .error () → i.measPlainRes = .ok meas →
      coordinator_update i =
        .ok (.obj [("home_id", .str hid), ("status", status), ("measures", meas)]))
  ∧ (∀ (i : CoordInputs),
      i.measEnergyRes = .error () → i.measPlainRes = .error () →
      coordinator_update i = .error ()) := by
  refine ⟨?_, ?_, ?_, ?_, ?_⟩
  · intro st now d res h1 h2
    unfold login_run
    rw [h1, h2]
  · intro st now res h1 h2 h3
    unfold login_run
    rw [h1, h2, h3]
  · intro st now d res hg hr h1
    unfold ensure_token
    rw [hg]
    simp only [Bool.false_eq_true, if_false]
    rw [if_pos hr]
    unfold login_run
    rw [h1]
  · intro i hid status meas h1 h2 h3 h4 h5
    obtain ⟨a, b, c, d, e⟩ := i
    simp only at h1 h2 h3 h4 h5
    subst h1 h2 h3 h4 h5
    rfl
  · intro i h4 h5
    obtain ⟨a, b, c, d, e⟩ := i
    simp only at h4 h5
    subst h4 h5
    unfold coordinator_update
    cases a with
    | error e0 => rfl
    | ok u =>
      cases b with
      | error e0 => rfl
      | ok hid =>
        cases c with
        | error e0 => rfl
        | ok status => rfl

/-- C4, witness: the login-retry clause of the amended theorem at a concrete
failing-then-succeeding request schedule. -/
theorem c4_witness :
    login_run ⟨none, none, none⟩ 0
        (fun n => if n = 1 then .error () else .ok ⟨some "t2", none, none⟩) =
      (.ok (store_tokens ⟨none, none, none⟩ 0 ⟨some "t2", none, none⟩),
        [.passwordGrant, .passwordGrant]) :=
  c4_failure_recovery.1 ⟨none, none, none⟩ 0 ⟨some "t2", none, none⟩ _ rfl rfl

/-- C5, counterexample: after a successful token response that carries no
`refresh_token`, the stored refresh token is the previously held `"r0"`, not
the (absent) one of the response — `_store_tokens` defaults the refresh
token to the old value, which the phrase "those of that response" does not
allow. -/
theorem c5_counterexample :
    (store_tokens ⟨some "a0", some "r0", some 100⟩ 0
        ⟨some "a1", none, some 7200⟩).refresh_token = some "r0"
  ∧ (⟨some "a1", none, some 7200⟩ : TokenData).refresh_token = none :=
  ⟨rfl, rfl⟩

/-- C5 (amended): the OAuth2 password/refresh lifecycle of `ensure_token` and
`_store_tokens`: no token request is made while a (truthy) access token
expires more than 60 seconds in the future; otherwise a held refresh token
is tried first and its failure falls back to the password login, and with no
refresh token the password login runs directly; after a successful token
response the stored access token and expiry are those of the response
(expiry `now + expires_in`, defaulting to `now + 3600` without a numeric
`expires_in`), while the refresh token is that of the response only when the
response carries one and is otherwise kept from before. -/
theorem c5_token_lifecycle :
    (∀ (st : AuthState) (now e : Rat) (refreshRes : Except Unit TokenData)
        (loginRes : Nat → Except Unit TokenData),
      truthyStr st.access_token = true → st.expires_at = some e →
      0 ≤ now → now < e - 60 →
      ensure_token st now refreshRes loginRes = (.ok st, []))
  ∧ (∀ (st : AuthState) (now : Rat) (d : TokenData)
        (loginRes : Nat → Except Unit TokenData),
      (truthyStr st.access_token && !token_expiring st now) = false →
      truthyStr st.refresh_token = true →
      ensure_token st now (.ok d) loginRes =
        (.ok (store_tokens st now d), [.refreshGrant]))
  ∧ (∀ (st : AuthState) (now : Rat) (d : TokenData)
        (loginRes : Nat → Except Unit TokenData),
      (truthyStr st.access_token && !token_expiring st now) = false →
      truthyStr st.refresh_token = true → loginRes 1 = .ok d →
      ensure_token st now (.error ()) loginRes =
        (.ok (store_tokens st now d), [.refreshGrant, .passwordGrant]))
  ∧ (∀ (st : AuthState) (now : Rat) (d : TokenData)
        (refreshRes : Except Unit TokenData)
        (loginRes : Nat → Except Unit TokenData),
      (truthyStr st.access_token && !token_expiring st now) = false →
      truthyStr st.refresh_token = false → loginRes 1 = .ok d →
      ensure_token st now refreshRes loginRes =
        (.ok (store_tokens st now d), [.passwordGrant]))
  ∧ (∀ (st : AuthState) (now : Rat) (d : TokenData),
      (store_tokens st now d).access_token = d.access_token
      ∧ (∀ r, d.refresh_token = some r →
          (store_tokens st now d).refresh_token = some r)
      ∧ (d.refresh_token = none →
          (store_tokens st now d).refresh_token = st.refresh_token)
      ∧ (∀ q, d.expires_in = some q →
          (store_tokens st now d).expires_at = some (now + q))
      ∧ (d.expires_in = none →
          (store_tokens st now d).expires_at = some (now + 3600))) := by
  refine ⟨?_, ?_, ?_, ?_, ?_⟩
  · intro st now e refreshRes loginRes hacc hexp h0 hlt
    unfold ensure_token
    have hne : token_expiring st now = false := by
      unfold token_expiring
      rw [hexp]
      dsimp only
      have he0 : ¬e = 0 := by
        intro h
        rw [h] at hlt
        linarith
      rw [if_neg he0]
      simp only [decide_eq_false_iff_not, not_le]
      linarith
    rw [hacc, hne]
    rfl
  · intro st now d loginRes hg hr
    unfold ensure_token
    rw [hg]
    simp only [Bool.false_eq_true, if_false]
    rw [if_pos hr]
  · intro st now d loginRes hg hr h1
    unfold ensure_token
    rw [hg]
    simp only [Bool.false_eq_true, if_false]
    rw [if_pos hr]
    unfold login_run
    rw [h1]
  · intro st now d refreshRes loginRes hg hr h1
    unfold ensure_token
    rw [hg]
    simp only [Bool.false_eq_true, if_false]
    rw [hr]
    simp only [Bool.false_eq_true, if_false]
    unfold login_run
    rw [h1]
  · intro st now d
    refine ⟨rfl, ?_, ?_, ?_, ?_⟩
    · intro r hr; unfold store_tokens; rw [hr]
    · intro hr; unfold store_tokens; rw [hr]
    · intro q hq; unfold store_tokens; rw [hq]; rfl
    · intro hq; unfold store_tokens; rw [hq]; rfl

/-- C5, witness: the no-request clause at a fresh token and the store
semantics at a concrete response. -/
theorem c5_witness :
    ensure_token ⟨some "a", some "r", some 1000⟩ 0 (.error ())
        (fun _ => .error ()) = (.ok ⟨some "a", some "r", some 1000⟩, []) ∧
      (store_tokens ⟨some "a", some "r", some 1000⟩ 0
        ⟨some "a1", none, none⟩).expires_at = some 3600 :=
  ⟨c5_token_lifecycle.1 ⟨some "a", some "r", some 1000⟩ 0 1000 (.error ())
      (fun _ => .error ()) (by decide) rfl (by norm_num) (by norm_num),
    by
      rw [(c5_token_lifecycle.2.2.2.2 ⟨some "a", some "r", some 1000⟩ 0
        ⟨some "a1", none, none⟩).2.2.2.2 rfl]
      norm_num⟩

/-- C8: `_request_json` raises `IntuisApiError` exactly when the HTTP status
is at least 400 or the body fails to parse as JSON, and on a sub-400 status
with a parsable body it returns the parsed JSON value. -/
theorem c8_request_json (r : HttpResponse) :
    ((request_json r = .error ()) ↔ (400 ≤ r.status ∨ r.parsedJson = none))
  ∧ (∀ j, r.status < 400 → r.parsedJson = some j → request_json r = .ok j) := by
  constructor
  · unfold request_json
    by_cases h : r.status ≥ 400
    · rw [if_pos h]
      simp [h]
    · rw [if_neg h]
      cases hp : r.parsedJson with
      | some j => simp [hp]; omega
      | none => simp [hp]
  · intro j h1 h2
    unfold request_json
    rw [if_neg (by omega), h2]

/-- C8, witness: a 200 response with a JSON body is returned parsed. -/
theorem c8_witness :
    request_json ⟨200, some (.str "ok-body")⟩ = .ok (.str "ok-body") :=
  (c8_request_json ⟨200, some (.str "ok-body")⟩).2 (.str "ok-body")
    (by decide) rfl

/-- C10: `room_mode_to_hvac_and_preset` is total (a `None`-derived or empty
room mode falls through to `(AUTO, no preset)`), matches case-insensitively
via `.lower()`, and maps `off`, `manual`, `away`, `hg` as listed; `home`
follows the home mode: `hg` gives `(HEAT, hg)`, `away` gives `(AUTO, away)`,
anything else (including a missing or empty home mode) gives
`(AUTO, home)`; every unknown room mode gives `(AUTO, no preset)`. -/
theorem c10_mode_mapping :
    (∀ hm, room_mode_to_hvac_and_preset none hm = (.auto, none))
  ∧ (∀ s hm, pyLower s = "off" →
      room_mode_to_hvac_and_preset (some s) hm = (.off, none))
  ∧ (∀ s hm, pyLower s = "manual" →
      room_mode_to_hvac_and_preset (some s) hm = (.heat, none))
  ∧ (∀ s hm, pyLower s = "away" →
      room_mode_to_hvac_and_preset (some s) hm = (.auto, some "away"))
  ∧ (∀ s hm, pyLower s = "hg" →
      room_mode_to_hvac_and_preset (some s) hm = (.heat, some "hg"))
  ∧ (∀ s h, pyLower s = "home" → h ≠ "" → pyLower h = "hg" →
      room_mode_to_hvac_and_preset (some s) (some h) = (.heat, some "hg"))
  ∧ (∀ s h, pyLower s = "home" → h ≠ "" → pyLower h = "away" →
      room_mode_to_hvac_and_preset (some s) (some h) = (.auto, some "away"))
  ∧ (∀ s hm, pyLower s = "home" →
      (match hm with
       | none => True
       | some h => h = "" ∨ (pyLower h ≠ "hg" ∧ pyLower h ≠ "away")) →
      room_mode_to_hvac_and_preset (some s) hm = (.auto, some "home"))
  ∧ (∀ s hm, pyLower s ∉ (["off", "manual", "away", "hg", "home"] : List String) →
      room_mode_to_hvac_and_preset (some s) hm = (.auto, none)) := by
  refine ⟨?_, ?_, ?_, ?_, ?_, ?_, ?_, ?_, ?_⟩
  · intro hm
    have h1 : pyLower "" ≠ "off" := by decide
    have h2 : pyLower "" ≠ "manual" := by decide
    have h3 : pyLower "" ≠ "away" := by decide
    have h4 : pyLower "" ≠ "hg" := by decide
    have h5 : pyLower "" ≠ "home" := by decide
    unfold room_mode_to_hvac_and_preset
    simp [h1, h2, h3, h4, h5]
  · intro s hm h
    unfold room_mode_to_hvac_and_preset
    simp [h]
  · intro s hm h
    unfold room_mode_to_hvac_and_preset
    simp [h]
  · intro s hm h
    unfold room_mode_to_hvac_and_preset
    simp [h]
  · intro s hm h
    unfold room_mode_to_hvac_and_preset
    simp [h]
  · intro s h hs hne hh
    unfold room_mode_to_hvac_and_preset
    simp [hs, hne, hh]
  · intro s h hs hne hh
    unfold room_mode_to_hvac_and_preset
    simp [hs, hne, hh]
  · intro s hm hs hh
    unfold room_mode_to_hvac_and_preset
    cases hm with
    | none => simp [hs]
    | some h =>
      rcases hh with hh | ⟨hh1, hh2⟩
      · simp [hs, hh]
      · simp [hs, hh1, hh2]
  · intro s hm h
    simp only [List.mem_cons, List.mem_singleton, not_or] at h
    obtain ⟨h1, h2, h3, h4, h5, _⟩ := h
    unfold room_mode_to_hvac_and_preset
    simp [h1, h2, h3, h4, h5]

/-- C6, counterexample: after setup captured a measured temperature of 20
from the first coordinator data, a later data dict reporting 25 leaves the
`native_value` of the sensor at the constructor-captured 20 (the claim says every
reported state of every entity is a mapping from the current coordinator data),
while the climate `current_temperature` read from the same new data is 25. -/
theorem c6_counterexample :
    sensor_measured_entities
        (.obj [("home", .obj [("rooms", .arr [.obj [("id", .str "r1"),
            ("name", .str "A")]])]),
          ("status", .obj [("rooms", .arr [.obj [("id", .str "r1"),
            ("therm_measured_temperature", .num 20)]])])]) = [("r1", 20)]
  ∧ room_temp_sensor_native_value 20
      (.obj [("home", .obj [("rooms", .arr [.obj [("id", .str "r1"),
          ("name", .str "A")]])]),
        ("status", .obj [("rooms", .arr [.obj [("id", .str "r1"),
          ("therm_measured_temperature", .num 25)]])])]) = 20
  ∧ climate_current_temperature
      (.obj [("home", .obj [("rooms", .arr [.obj [("id", .str "r1"),
          ("name", .str "A")]])]),
        ("status", .obj [("rooms", .arr [.obj [("id", .str "r1"),
          ("therm_measured_temperature", .num 25)]])])]) "r1" = some 25
  ∧ (20 : Rat) ≠ 25 :=
  ⟨rfl, rfl, rfl, by norm_num⟩

/-- C6 (amended): only the climate entity properties are live reads of the
current data dict of the coordinator: `IntuisRoomClimate.current_temperature`
recomputes from whatever data dict is current at access time, whereas
`IntuisRoomTempSensor.native_value` returns the value captured at entity
construction whatever the current data says. -/
theorem c6_entity_state_reads (v : Rat) (d d2 data : Json)
    (p room : List (String × Json)) (status : Json) (rid : String) (q : Rat) :
    room_temp_sensor_native_value v d = v
  ∧ room_temp_sensor_native_value v d = room_temp_sensor_native_value v d2
  ∧ (data = .obj p → JObj.get p "status" = some status → pyTruthy status = true →
      climateFindRoom status rid = some room →
      JObj.get room "therm_measured_temperature" = some (.num q) →
      climate_current_temperature data rid = some q) := by
  refine ⟨rfl, rfl, ?_⟩
  intro hdata hget htr hfind hfield
  subst hdata
  unfold climate_current_temperature
  have hp : pyTruthy (.obj p) = true := by
    cases p with
    | nil => simp [JObj.get] at hget
    | cons kv t => simp [pyTruthy]
  have h1 : pyOr (Json.obj p) (.obj []) = .obj p := by
    unfold pyOr
    rw [if_pos hp]
  have hgs : getAny (Json.obj p) "status" = status := by
    unfold getAny getN
    dsimp only
    rw [hget]
    rfl
  have h2 : pyOr status (.obj []) = status := by
    unfold pyOr
    rw [if_pos htr]
  rw [h1, hgs, h2]
  dsimp only
  rw [hfind]
  dsimp only
  unfold getN
  rw [hfield]
  rfl

/-- C6, witness: the climate clause of the amended theorem at the concrete data of
the counterexample scenario. -/
theorem c6_witness :
    climate_current_temperature
        (.obj [("home", .obj [("rooms", .arr [.obj [("id", .str "r1"),
            ("name", .str "A")]])]),
          ("status", .obj [("rooms", .arr [.obj [("id", .str "r1"),
            ("therm_measured_temperature", .num 25)]])])]) "r1" = some 25 :=
  (c6_entity_state_reads 0 .null .null
      (.obj [("home", .obj [("rooms", .arr [.obj [("id", .str "r1"),
          ("name", .str "A")]])]),
        ("status", .obj [("rooms", .arr [.obj [("id", .str "r1"),
          ("therm_measured_temperature", .num 25)]])])])
      [("home", .obj [("rooms", .arr [.obj [("id", .str "r1"),
          ("name", .str "A")]])]),
        ("status", .obj [("rooms", .arr [.obj [("id", .str "r1"),
          ("therm_measured_temperature", .num 25)]])])]
      [("id", .str "r1"), ("therm_measured_temperature", .num 25)]
      (.obj [("rooms", .arr [.obj [("id", .str "r1"),
        ("therm_measured_temperature", .num 25)]])])
      "r1" 25).2.2 rfl rfl (by decide) rfl rfl

/-- C7: for a room record found in the status payload, the exposed values
are read from its fields: the measured temperature from
`therm_measured_temperature`, the setpoint from
`therm_setpoint_temperature` with the per-room temperature of the selected
schedule as fallback when the field is absent (the fallback digging
through `configs.body.home`, the `therm_schedules or schedules` list, the
first schedule marked `selected`, and the `rooms_temp` entries of its
zones), and
the mode from `therm_setpoint_mode`. -/
theorem c7_room_fields (status configs : Json)
    (room roomRec : List (String × Json)) (rid : String)
    (hfind : sensorFindRoom status rid = some room) :
    (∀ q, JObj.get room "therm_measured_temperature" = some (.num q) →
      sensor_room_measured status roomRec rid = some q)
  ∧ (∀ q, JObj.get room "therm_setpoint_temperature" = some (.num q) →
      sensor_room_setpoint status configs rid = some q)
  ∧ (JObj.get room "therm_setpoint_temperature" = none →
      sensor_room_setpoint status configs rid =
        get_room_setpoint_from_configs configs rid)
  ∧ (∀ s, JObj.get room "therm_setpoint_mode" = some (.str s) →
      sensor_room_mode status rid = some s)
  ∧ (∀ (c b h : List (String × Json)) (scheds : List Json)
        (sel z rt : List (String × Json)) (t : Rat),
      configs = .obj c → JObj.get c "body" = some (.obj b) →
      JObj.get b "home" = some (.obj h) →
      pyOr (getN h "therm_schedules") (getN h "schedules") = .arr scheds →
      findSelectedTrue scheds = some (.obj sel) →
      JObj.get sel "zones" = some (.arr [.obj z]) →
      JObj.get z "rooms_temp" = some (.arr [.obj rt]) →
      pyStr (getN rt "room_id") = rid →
      JObj.get rt "temp" = some (.num t) →
      get_room_setpoint_from_configs configs rid = some t) := by
  refine ⟨?_, ?_, ?_, ?_, ?_⟩
  · intro q hq
    unfold sensor_room_measured get_room_field
    rw [hfind]
    dsimp only
    rw [hq]
    rfl
  · intro q hq
    unfold sensor_room_setpoint get_room_field
    rw [hfind]
    dsimp only
    rw [hq]
    rfl
  · intro hq
    unfold sensor_room_setpoint get_room_field
    rw [hfind]
    dsimp only
    rw [hq]
  · intro s hs
    unfold sensor_room_mode get_room_field
    rw [hfind]
    dsimp only
    rw [hs]
    rfl
  · intro c b h scheds sel z rt t hc hb hh hsch hsel hz hrt hridm ht
    subst hc
    unfold get_room_setpoint_from_configs
    dsimp only
    rw [hb]
    dsimp only
    rw [hh]
    dsimp only
    rw [hsch]
    dsimp only
    rw [hsel]
    dsimp only
    rw [hz]
    dsimp only
    unfold zonesScan
    rw [hrt]
    dsimp only
    unfold zoneRoomsTempScan
    rw [if_pos hridm, ht]

/-- C7, witness: the field-reading theorem at a concrete status and configs
payload. -/
theorem c7_witness :
    sensor_room_measured
        (.obj [("rooms", .arr [.obj [("id", .str "r1"),
          ("therm_measured_temperature", .num 19)]])]) [] "r1" = some 19
  ∧ get_room_setpoint_from_configs
      (.obj [("body", .obj [("home", .obj [("schedules", .arr
        [.obj [("selected", .bool true), ("zones", .arr [.obj [("rooms_temp",
          .arr [.obj [("room_id", .str "r1"), ("temp", .num 17)]])]])]])])])])
      "r1" = some 17 := by
  have h := c7_room_fields
    (.obj [("rooms", .arr [.obj [("id", .str "r1"),
      ("therm_measured_temperature", .num 19)]])])
    (.obj [("body", .obj [("home", .obj [("schedules", .arr
      [.obj [("selected", .bool true), ("zones", .arr [.obj [("rooms_temp",
        .arr [.obj [("room_id", .str "r1"), ("temp", .num 17)]])]])]])])])])
    [("id", .str "r1"), ("therm_measured_temperature", .num 19)] [] "r1" rfl
  refine ⟨h.1 19 rfl, ?_⟩
  exact h.2.2.2.2
    [("body", .obj [("home", .obj [("schedules", .arr
      [.obj [("selected", .bool true), ("zones", .arr [.obj [("rooms_temp",
        .arr [.obj [("room_id", .str "r1"), ("temp", .num 17)]])]])]])])])]
    [("home", .obj [("schedules", .arr
      [.obj [("selected", .bool true), ("zones", .arr [.obj [("rooms_temp",
        .arr [.obj [("room_id", .str "r1"), ("temp", .num 17)]])]])]])])]
    [("schedules", .arr
      [.obj [("selected", .bool true), ("zones", .arr [.obj [("rooms_temp",
        .arr [.obj [("room_id", .str "r1"), ("temp", .num 17)]])]])]])]
    [.obj [("selected", .bool true), ("zones", .arr [.obj [("rooms_temp",
      .arr [.obj [("room_id", .str "r1"), ("temp", .num 17)]])]])]]
    [("selected", .bool true), ("zones", .arr [.obj [("rooms_temp",
      .arr [.obj [("room_id", .str "r1"), ("temp", .num 17)]])]])]
    [("rooms_temp", .arr [.obj [("room_id", .str "r1"), ("temp", .num 17)]])]
    [("room_id", .str "r1"), ("temp", .num 17)]
    17 rfl rfl rfl rfl rfl rfl rfl rfl rfl

/-- C10, witness: the mapping at concrete mixed-case inputs. -/
theorem c10_witness :
    room_mode_to_hvac_and_preset (some "OFF") (some "home") = (.off, none) ∧
      room_mode_to_hvac_and_preset (some "Home") (some "HG") = (.heat, some "hg") :=
  ⟨c10_mode_mapping.2.1 "OFF" (some "home") (by decide),
    c10_mode_mapping.2.2.2.2.2.1 "Home" "HG" (by decide) (by decide) (by decide)⟩

end Intuis

